import Mathlib

/- Verification development for the rust-sitemap-writer library: a shallow
embedding of its data model and serializers, with theorems checking the
specification's statements against the embedded code. -/

/-- Models the enum SitemapChangeFreq from src/sitemap_url.rs: the closed set
of seven change-frequency variants. -/
inductive SitemapChangeFreq where
  | ALWAYS
  | HOURLY
  | DAILY
  | WEEKLY
  | MONTHLY
  | YEARLY
  | NEVER
deriving DecidableEq

/-- Models the Display impl for SitemapChangeFreq from src/sitemap_url.rs:
the canonical lowercase rendering of each variant. -/
def SitemapChangeFreq.toString : SitemapChangeFreq → String
  | .ALWAYS => "always"
  | .HOURLY => "hourly"
  | .DAILY => "daily"
  | .WEEKLY => "weekly"
  | .MONTHLY => "monthly"
  | .YEARLY => "yearly"
  | .NEVER => "never"

/-- Models the struct SitemapUrl from src/sitemap_url.rs. The priority field
is Option of f32 in the source and is rendered by the default Display form
at serialization time; floating-point display is not shallowly embeddable,
so the field here carries that rendered text directly. No claim depends on
the digits of the rendering. -/
structure SitemapUrl where
  loc : String
  lastmod : Option String
  changefreq : Option SitemapChangeFreq
  priority : Option String
deriving DecidableEq

/-- Models the Default impl for SitemapUrl from src/sitemap_url.rs. -/
def SitemapUrl.default : SitemapUrl :=
  { loc := "", lastmod := none, changefreq := none, priority := none }

/-- Models SitemapUrl::new from src/sitemap_url.rs. -/
def SitemapUrl.new (loc : String) : SitemapUrl :=
  { SitemapUrl.default with loc := loc }

/-- Models the struct SitemapIndex from src/sitemap_index.rs. -/
structure SitemapIndex where
  loc : String
  lastmod : Option String
deriving DecidableEq

/-- Models the Default impl for SitemapIndex from src/sitemap_index.rs. -/
def SitemapIndex.default : SitemapIndex :=
  { loc := "", lastmod := none }

/-- Models SitemapIndex::new from src/sitemap_index.rs. -/
def SitemapIndex.new (loc : String) : SitemapIndex :=
  { SitemapIndex.default with loc := loc }

/-- Models the enum SitemapError from src/error.rs: a file-open failure or a
write failure, each carrying the platform error's textual description. -/
inductive SitemapError where
  | FileOpen (msg : String)
  | Write (msg : String)
deriving DecidableEq

/-- Models the per-character behaviour of html_escape::encode_text, the
escaping routine the source applies to every loc field. That routine escapes
exactly the three characters ampersand, less-than and greater-than in text
content; quote characters pass through unchanged. -/
def encodeTextChar (c : Char) : String :=
  if c = '&' then "&amp;"
  else if c = '<' then "&lt;"
  else if c = '>' then "&gt;"
  else String.singleton c

/-- Character-list form of the escaping of html_escape::encode_text. -/
def encodeChars : List Char → List Char
  | [] => []
  | c :: rest => (encodeTextChar c).data ++ encodeChars rest

/-- Models html_escape::encode_text as used at src/sitemap_writer.rs line 142
and src/sitemap_index.rs line 211. -/
def encodeText (s : String) : String :=
  String.mk (encodeChars s.data)

/-- Concatenation of a list of strings in order. -/
def strConcat : List String → String
  | [] => ""
  | s :: rest => s ++ strConcat rest

/-- The XML declaration literal written first by both serializers. -/
def xmlDecl : String := "<?xml version=\"1.0\" encoding=\"UTF-8\"?>"

/-- The root-open tag literal of the URL-set serializer. -/
def urlsetOpen : String :=
  "<urlset xmlns=\"http://www.sitemaps.org/schemas/sitemap/0.9\">"

/-- The root-open tag literal of the index serializer. -/
def sitemapindexOpen : String :=
  "<sitemapindex xmlns=\"http://www.sitemaps.org/schemas/sitemap/0.9\">"

/-- Models the loop body of SitemapWriter::build (src/sitemap_writer.rs lines
140 to 157; the identical loop body appears in SitemapWriter::make lines 77
to 95): the row string accumulated for one SitemapUrl. -/
def SitemapWriter.urlRow (url : SitemapUrl) : String :=
  let row := "<url>"
  let row := row ++ ("<loc>" ++ encodeText url.loc ++ "</loc>")
  let row :=
    if url.lastmod.isSome then
      row ++ ("<lastmod>" ++ url.lastmod.getD "" ++ "</lastmod>")
    else row
  let row :=
    match url.changefreq with
    | some freq => row ++ ("<changefreq>" ++ freq.toString ++ "</changefreq>")
    | none => row
  let row :=
    match url.priority with
    | some p => row ++ ("<priority>" ++ p ++ "</priority>")
    | none => row
  row ++ "</url>"

/-- Models SitemapWriter::build from src/sitemap_writer.rs lines 136 to 162:
declaration, root-open tag, one row per url in order, then the closing tag
followed by a single space. -/
def SitemapWriter.build (urls : List SitemapUrl) : String :=
  let content := ""
  let content := content ++ xmlDecl
  let content := content ++ urlsetOpen
  let content := urls.foldl (fun content url => content ++ SitemapWriter.urlRow url) content
  content ++ "</urlset> "

/-- Models the loop body of SitemapIndexWriter::build (src/sitemap_index.rs
lines 207 to 219; the identical loop body appears in SitemapIndexWriter::make
lines 152 to 164): the row string accumulated for one SitemapIndex entry. -/
def SitemapIndexWriter.sitemapRow (sitemap : SitemapIndex) : String :=
  let row := "<sitemap>"
  let row := row ++ ("<loc>" ++ encodeText sitemap.loc ++ "</loc>")
  let row :=
    match sitemap.lastmod with
    | some lastmod => row ++ ("<lastmod>" ++ lastmod ++ "</lastmod>")
    | none => row
  row ++ "</sitemap>"

/-- Models SitemapIndexWriter::build from src/sitemap_index.rs lines 202 to
223: declaration, root-open tag, one row per entry in order, then the closing
tag with no trailing space. -/
def SitemapIndexWriter.build (sitemaps : List SitemapIndex) : String :=
  let content := ""
  let content := content ++ xmlDecl
  let content := content ++ sitemapindexOpen
  let content :=
    sitemaps.foldl (fun content sitemap => content ++ SitemapIndexWriter.sitemapRow sitemap) content
  content ++ "</sitemapindex>"

/-- Models the platform file layer seen by make: the outcome of File::create
at the given path, the outcome of the i-th sequential write, and the outcome
of the final flush. An error outcome carries the platform error's textual
description, matching the to_string calls in the source. -/
structure WriteEnv where
  createResult : Except String Unit
  writeResult : Nat → Except String Unit
  flushResult : Except String Unit

/-- Sequentially performs the writes of make through write_text
(src/sitemap_writer.rs lines 165 to 171): returns the chunks actually
written and, if some write failed, the platform error message of the first
failure, at which point no further write is attempted. -/
def writeAll (env : WriteEnv) : Nat → List String → List String × Option String
  | _, [] => ([], none)
  | i, c :: cs =>
    match env.writeResult i with
    | .ok _ =>
      let r := writeAll env (i + 1) cs
      (c :: r.1, r.2)
    | .error m => ([], some m)

/-- The error-handling skeleton shared by SitemapWriter::make and
SitemapIndexWriter::make: if File::create fails, return FileOpen with the
platform message and write nothing; otherwise write the chunks in order,
turning the first write failure into a Write error, then flush, turning a
flush failure into a Write error. Returns the result together with the trace
of chunks written. -/
def runMake (env : WriteEnv) (chunks : List String) : Except SitemapError Unit × List String :=
  match env.createResult with
  | .error m => (.error (.FileOpen m), [])
  | .ok _ =>
    match writeAll env 0 chunks with
    | (trace, some m) => (.error (.Write m), trace)
    | (trace, none) =>
      match env.flushResult with
      | .ok _ => (.ok (), trace)
      | .error m => (.error (.Write m), trace)

/-- The chunks SitemapWriter::make passes to write_text, in order
(src/sitemap_writer.rs lines 71 to 97). -/
def SitemapWriter.makeChunks (urls : List SitemapUrl) : List String :=
  xmlDecl :: urlsetOpen :: (urls.map SitemapWriter.urlRow ++ ["</urlset> "])

/-- Models SitemapWriter::make from src/sitemap_writer.rs lines 65 to 102,
with the platform file layer supplied as a WriteEnv. -/
def SitemapWriter.make (env : WriteEnv) (urls : List SitemapUrl) :
    Except SitemapError Unit × List String :=
  runMake env (SitemapWriter.makeChunks urls)

/-- The chunks SitemapIndexWriter::make passes to write_text, in order
(src/sitemap_index.rs lines 146 to 165). -/
def SitemapIndexWriter.makeChunks (sitemaps : List SitemapIndex) : List String :=
  xmlDecl :: sitemapindexOpen ::
    (sitemaps.map SitemapIndexWriter.sitemapRow ++ ["</sitemapindex>"])

/-- Models SitemapIndexWriter::make from src/sitemap_index.rs lines 140 to
170, with the platform file layer supplied as a WriteEnv. -/
def SitemapIndexWriter.make (env : WriteEnv) (sitemaps : List SitemapIndex) :
    Except SitemapError Unit × List String :=
  runMake env (SitemapIndexWriter.makeChunks sitemaps)

/-- Modelled from the spec: the escaping the specification describes for C1,
which converts the quote characters to entity references in addition to the
three characters html_escape::encode_text handles. The repository contains
no such routine; this definition follows the spec wording so it can be
compared with the code's actual escaping. -/
def claimEscapeChar (c : Char) : String :=
  if c = '&' then "&amp;"
  else if c = '<' then "&lt;"
  else if c = '>' then "&gt;"
  else if c = Char.ofNat 34 then "&quot;"
  else if c = Char.ofNat 39 then "&#39;"
  else String.singleton c

/-- Modelled from the spec: string form of claimEscapeChar. -/
def claimEscape (s : String) : String :=
  String.mk (s.data.flatMap (fun c => (claimEscapeChar c).data))

/-- Modelled from the spec: decoding of the entity references produced by the
escaping routine, used to state that escaping is applied exactly once and is
reversible. The repository itself contains no decoder. -/
def decodeChars : List Char → List Char
  | [] => []
  | c :: rest =>
    if c = '&' then
      match rest with
      | 'a' :: 'm' :: 'p' :: ';' :: r => '&' :: decodeChars r
      | 'l' :: 't' :: ';' :: r => '<' :: decodeChars r
      | 'g' :: 't' :: ';' :: r => '>' :: decodeChars r
      | r => c :: decodeChars r
    else c :: decodeChars rest

/-- Modelled from the spec: string form of decodeChars. -/
def decodeText (s : String) : String :=
  String.mk (decodeChars s.data)

/-- Rendering of one optional sub-element: nothing when the field is absent,
the value wrapped in the given open and close tags when present. Used to
state the fixed field order of an entry element. -/
def optElem (openTag closeTag : String) (v : Option String) : String :=
  match v with
  | none => ""
  | some s => openTag ++ (s ++ closeTag)

/- Helper lemmas shared by the claim theorems. -/

/-- Concatenation distributes over list append. -/
theorem strConcat_append (a b : List String) :
    strConcat (a ++ b) = strConcat a ++ strConcat b := by
  induction a with
  | nil => simp [strConcat, String.empty_append]
  | cons s rest ih => simp [strConcat, ih, String.append_assoc]

/-- The accumulating append loop of build equals the initial content followed
by the concatenation of the rows in order. -/
theorem foldl_append_eq {α : Type} (f : α → String) (l : List α) (init : String) :
    List.foldl (fun acc x => acc ++ f x) init l = init ++ strConcat (l.map f) := by
  induction l generalizing init with
  | nil => simp [strConcat, String.append_empty]
  | cons x xs ih =>
    simp only [List.foldl_cons, List.map_cons, strConcat]
    rw [ih, String.append_assoc]

/-- Decomposition of SitemapWriter.build: declaration, root-open tag, the
rows in input order, closing tag plus trailing space. -/
theorem build_eq (urls : List SitemapUrl) :
    SitemapWriter.build urls =
      xmlDecl ++ (urlsetOpen ++
        (strConcat (urls.map SitemapWriter.urlRow) ++ "</urlset> ")) := by
  simp only [SitemapWriter.build]
  rw [foldl_append_eq]
  simp [String.empty_append, String.append_assoc]

/-- Decomposition of SitemapIndexWriter.build: declaration, root-open tag,
the rows in input order, closing tag with no trailing space. -/
theorem indexBuild_eq (sitemaps : List SitemapIndex) :
    SitemapIndexWriter.build sitemaps =
      xmlDecl ++ (sitemapindexOpen ++
        (strConcat (sitemaps.map SitemapIndexWriter.sitemapRow) ++ "</sitemapindex>")) := by
  simp only [SitemapIndexWriter.build]
  rw [foldl_append_eq]
  simp [String.empty_append, String.append_assoc]

/-- Decomposition of a url row into its ordered parts: location first, then
the three optional sub-elements in their fixed order, each absent field
contributing the empty string. -/
theorem urlRow_eq (u : SitemapUrl) :
    SitemapWriter.urlRow u =
      "<url>" ++ ("<loc>" ++ (encodeText u.loc ++ ("</loc>" ++
        (optElem "<lastmod>" "</lastmod>" u.lastmod ++
          (optElem "<changefreq>" "</changefreq>"
              (u.changefreq.map SitemapChangeFreq.toString) ++
            (optElem "<priority>" "</priority>" u.priority ++ "</url>")))))) := by
  obtain ⟨loc, lm, cf, pr⟩ := u
  cases lm <;> cases cf <;> cases pr <;>
    simp [SitemapWriter.urlRow, optElem, String.append_assoc, String.empty_append]

/-- Decomposition of an index row into its ordered parts: location first,
then the optional lastmod sub-element. -/
theorem sitemapRow_eq (s : SitemapIndex) :
    SitemapIndexWriter.sitemapRow s =
      "<sitemap>" ++ ("<loc>" ++ (encodeText s.loc ++ ("</loc>" ++
        (optElem "<lastmod>" "</lastmod>" s.lastmod ++ "</sitemap>")))) := by
  obtain ⟨loc, lm⟩ := s
  cases lm <;>
    simp [SitemapIndexWriter.sitemapRow, optElem, String.append_assoc, String.empty_append]

/-- The escaped form of a character list contains no raw less-than and no raw
greater-than character. -/
theorem encodeChars_no_angle (l : List Char) :
    ∀ c ∈ encodeChars l, c ≠ '<' ∧ c ≠ '>' := by
  induction l with
  | nil => intro c hc; simp [encodeChars] at hc
  | cons x xs ih =>
    intro c hc
    have hx : encodeChars (x :: xs) = (encodeTextChar x).data ++ encodeChars xs := rfl
    rw [hx, List.mem_append] at hc
    rcases hc with hc | hc
    · by_cases h1 : x = '&'
      · subst h1
        have : (encodeTextChar '&').data = ['&', 'a', 'm', 'p', ';'] := rfl
        rw [this] at hc
        simp at hc
        rcases hc with rfl | rfl | rfl | rfl | rfl <;> exact ⟨by decide, by decide⟩
      · by_cases h2 : x = '<'
        · subst h2
          have : (encodeTextChar '<').data = ['&', 'l', 't', ';'] := rfl
          rw [this] at hc
          simp at hc
          rcases hc with rfl | rfl | rfl | rfl <;> exact ⟨by decide, by decide⟩
        · by_cases h3 : x = '>'
          · subst h3
            have : (encodeTextChar '>').data = ['&', 'g', 't', ';'] := rfl
            rw [this] at hc
            simp at hc
            rcases hc with rfl | rfl | rfl | rfl <;> exact ⟨by decide, by decide⟩
          · have : (encodeTextChar x).data = [x] := by
              simp [encodeTextChar, if_neg h1, if_neg h2, if_neg h3, String.singleton]
            rw [this] at hc
            simp at hc
            subst hc
            exact ⟨h2, h3⟩
    · exact ih c hc

/-- Decoding inverts the escaping, character-list form: the escaping is
applied exactly once and loses no information. -/
theorem decode_encode (l : List Char) : decodeChars (encodeChars l) = l := by
  induction l with
  | nil => rfl
  | cons c rest ih =>
    by_cases h1 : c = '&'
    · subst h1
      have he : encodeChars ('&' :: rest) = '&' :: 'a' :: 'm' :: 'p' :: ';' :: encodeChars rest := rfl
      have hd : decodeChars ('&' :: 'a' :: 'm' :: 'p' :: ';' :: encodeChars rest) =
          '&' :: decodeChars (encodeChars rest) := rfl
      rw [he, hd, ih]
    · by_cases h2 : c = '<'
      · subst h2
        have he : encodeChars ('<' :: rest) = '&' :: 'l' :: 't' :: ';' :: encodeChars rest := rfl
        have hd : decodeChars ('&' :: 'l' :: 't' :: ';' :: encodeChars rest) =
            '<' :: decodeChars (encodeChars rest) := rfl
        rw [he, hd, ih]
      · by_cases h3 : c = '>'
        · subst h3
          have he : encodeChars ('>' :: rest) = '&' :: 'g' :: 't' :: ';' :: encodeChars rest := rfl
          have hd : decodeChars ('&' :: 'g' :: 't' :: ';' :: encodeChars rest) =
              '>' :: decodeChars (encodeChars rest) := rfl
          rw [he, hd, ih]
        · have he : encodeChars (c :: rest) = c :: encodeChars rest := by
            have : (encodeTextChar c).data = [c] := by
              simp [encodeTextChar, if_neg h1, if_neg h2, if_neg h3, String.singleton]
            have hx : encodeChars (c :: rest) = (encodeTextChar c).data ++ encodeChars rest := rfl
            rw [hx, this]
            rfl
          have hd : decodeChars (c :: encodeChars rest) = c :: decodeChars (encodeChars rest) := by
            rw [decodeChars.eq_def]
            simp [h1]
          rw [he, hd, ih]

/-- Decoding inverts the escaping on strings. -/
theorem decodeText_encodeText (s : String) : decodeText (encodeText s) = s := by
  have h : decodeText (encodeText s) = String.mk (decodeChars (encodeChars s.data)) := rfl
  rw [h, decode_encode]

/-- The escaping routine is injective. -/
theorem encodeText_injective (s t : String) (h : encodeText s = encodeText t) : s = t := by
  have h2 : decodeText (encodeText s) = decodeText (encodeText t) := by rw [h]
  rwa [decodeText_encodeText, decodeText_encodeText] at h2

/-- When no write fails, the trace of written chunks is the whole list. -/
theorem writeAll_snd_none {env : WriteEnv} :
    ∀ (cs : List String) (i : Nat),
      (writeAll env i cs).2 = none → (writeAll env i cs).1 = cs := by
  intro cs
  induction cs with
  | nil => intro i _; rfl
  | cons c cs ih =>
    intro i h
    cases hw : env.writeResult i with
    | ok v =>
      simp only [writeAll, hw] at h ⊢
      rw [ih (i + 1) h]
    | error m =>
      simp only [writeAll, hw] at h
      exact Option.noConfusion h

/-- When every write in range succeeds, all chunks are written and no error
message is produced. -/
theorem writeAll_ok_of_all {env : WriteEnv} :
    ∀ (cs : List String) (i : Nat),
      (∀ j, j < cs.length → env.writeResult (i + j) = Except.ok ()) →
      writeAll env i cs = (cs, none) := by
  intro cs
  induction cs with
  | nil => intro i _; rfl
  | cons c cs ih =>
    intro i h
    have h0 : env.writeResult i = Except.ok () := by
      have := h 0 (by simp)
      simpa using this
    have hrest : ∀ j, j < cs.length → env.writeResult (i + 1 + j) = Except.ok () := by
      intro j hj
      have := h (j + 1) (by simpa using Nat.succ_lt_succ hj)
      simpa [Nat.add_assoc, Nat.add_comm 1 j] using this
    simp only [writeAll, h0]
    rw [ih (i + 1) hrest]

/-- When no write fails, every write in range returned success. -/
theorem writeAll_all_of_none {env : WriteEnv} :
    ∀ (cs : List String) (i : Nat),
      (writeAll env i cs).2 = none →
      ∀ j, j < cs.length → env.writeResult (i + j) = Except.ok () := by
  intro cs
  induction cs with
  | nil => intro i _ j hj; simp at hj
  | cons c cs ih =>
    intro i h j hj
    cases hw : env.writeResult i with
    | ok v =>
      cases j with
      | zero => cases v; simpa using hw
      | succ j =>
        simp only [writeAll, hw] at h
        have := ih (i + 1) h j (by simpa using Nat.lt_of_succ_lt_succ hj)
        simpa [Nat.add_assoc, Nat.add_comm 1 j] using this
    | error m =>
      simp only [writeAll, hw] at h
      exact Option.noConfusion h

/-- When some write fails with message m, a write in range failed with that
platform message. -/
theorem writeAll_snd_some {env : WriteEnv} :
    ∀ (cs : List String) (i : Nat) (m : String),
      (writeAll env i cs).2 = some m →
      ∃ j, j < cs.length ∧ env.writeResult (i + j) = Except.error m := by
  intro cs
  induction cs with
  | nil => intro i m h; simp [writeAll] at h
  | cons c cs ih =>
    intro i m h
    cases hw : env.writeResult i with
    | ok v =>
      simp only [writeAll, hw] at h
      obtain ⟨j, hj, he⟩ := ih (i + 1) m h
      exact ⟨j + 1, by simpa using Nat.succ_lt_succ hj, by
        simpa [Nat.add_assoc, Nat.add_comm 1 j] using he⟩
    | error m2 =>
      simp only [writeAll, hw] at h
      have hm : m2 = m := by simpa using h
      subst hm
      exact ⟨0, by simp, by simpa using hw⟩

/-- A failed File::create yields the FileOpen error with the platform message
and an empty write trace. -/
theorem runMake_create_error (env : WriteEnv) (chunks : List String) (m : String)
    (h : env.createResult = Except.error m) :
    runMake env chunks = (Except.error (SitemapError.FileOpen m), []) := by
  simp [runMake, h]

/-- A FileOpen error only arises from a failed File::create, with the same
platform message. -/
theorem runMake_fileOpen_inv (env : WriteEnv) (chunks : List String) (m : String)
    (h : (runMake env chunks).1 = Except.error (SitemapError.FileOpen m)) :
    env.createResult = Except.error m := by
  cases hc : env.createResult with
  | ok v =>
    exfalso
    cases hw : writeAll env 0 chunks with
    | mk tr o =>
      cases o with
      | none =>
        cases hf : env.flushResult with
        | ok w => simp [runMake, hc, hw, hf] at h
        | error m2 => simp [runMake, hc, hw, hf] at h
      | some m2 => simp [runMake, hc, hw] at h
  | error m2 =>
    have := runMake_create_error env chunks m2 hc
    rw [this] at h
    simp at h
    rw [h]

/-- After a successful File::create, the run succeeds exactly when every
sequential write and the final flush succeed. -/
theorem runMake_ok_iff (env : WriteEnv) (chunks : List String)
    (h : env.createResult = Except.ok ()) :
    (runMake env chunks).1 = Except.ok () ↔
      (∀ j, j < chunks.length → env.writeResult j = Except.ok ()) ∧
        env.flushResult = Except.ok () := by
  constructor
  · intro hok
    cases hw : writeAll env 0 chunks with
    | mk tr o =>
      cases o with
      | none =>
        cases hf : env.flushResult with
        | ok w =>
          cases w
          refine ⟨?_, rfl⟩
          intro j hj
          have := writeAll_all_of_none chunks 0 (by rw [hw]) j hj
          simpa using this
        | error m2 => simp [runMake, h, hw, hf] at hok
      | some m2 => simp [runMake, h, hw] at hok
  · rintro ⟨hall, hf⟩
    have hw : writeAll env 0 chunks = (chunks, none) :=
      writeAll_ok_of_all chunks 0 (by intro j hj; simpa using hall j hj)
    simp [runMake, h, hw, hf]

/-- A Write error arises only after a successful File::create, and carries
the platform message of a failed sequential write or of the failed flush. -/
theorem runMake_write_error (env : WriteEnv) (chunks : List String) (m : String)
    (hm : (runMake env chunks).1 = Except.error (SitemapError.Write m)) :
    env.createResult = Except.ok () ∧
      ((∃ j, j < chunks.length ∧ env.writeResult j = Except.error m) ∨
        env.flushResult = Except.error m) := by
  cases hc : env.createResult with
  | error m2 =>
    have := runMake_create_error env chunks m2 hc
    rw [this] at hm
    simp at hm
  | ok v =>
    cases v
    refine ⟨rfl, ?_⟩
    cases hw : writeAll env 0 chunks with
    | mk tr o =>
      cases o with
      | some m2 =>
        have : m2 = m := by simp [runMake, hc, hw] at hm; exact hm
        subst this
        obtain ⟨j, hj, he⟩ := writeAll_snd_some chunks 0 m2 (by rw [hw])
        exact Or.inl ⟨j, hj, by simpa using he⟩
      | none =>
        cases hf : env.flushResult with
        | ok w => simp [runMake, hc, hw, hf] at hm
        | error m2 =>
          have : m2 = m := by simp [runMake, hc, hw, hf] at hm; exact hm
          subst this
          exact Or.inr rfl

/-- On a successful run, the trace of written chunks is exactly the full
chunk list. -/
theorem runMake_ok_trace (env : WriteEnv) (chunks : List String)
    (h : (runMake env chunks).1 = Except.ok ()) :
    (runMake env chunks).2 = chunks := by
  cases hc : env.createResult with
  | error m =>
    have := runMake_create_error env chunks m hc
    rw [this] at h
    simp at h
  | ok v =>
    cases v
    cases hw : writeAll env 0 chunks with
    | mk tr o =>
      cases o with
      | some m2 => simp [runMake, hc, hw] at h
      | none =>
        cases hf : env.flushResult with
        | error m2 => simp [runMake, hc, hw, hf] at h
        | ok w =>
          have htr : tr = chunks := by
            have := writeAll_snd_none chunks 0 (by rw [hw])
            rw [hw] at this
            exact this
          simp [runMake, hc, hw, hf, htr]

/-- The document built for a list containing u contains the row of u, with
the earlier rows before it and the later rows after it. -/
theorem build_mem_decomp (urls : List SitemapUrl) (u : SitemapUrl) (hu : u ∈ urls) :
    ∃ pre post, SitemapWriter.build urls = pre ++ (SitemapWriter.urlRow u ++ post) := by
  obtain ⟨l1, l2, rfl⟩ := List.append_of_mem hu
  refine ⟨xmlDecl ++ (urlsetOpen ++ strConcat (l1.map SitemapWriter.urlRow)),
    strConcat (l2.map SitemapWriter.urlRow) ++ "</urlset> ", ?_⟩
  rw [build_eq]
  simp [List.map_append, strConcat_append, strConcat, String.append_assoc]

/-- The index document built for a list containing e contains the row of e,
with the earlier rows before it and the later rows after it. -/
theorem indexBuild_mem_decomp (sitemaps : List SitemapIndex) (e : SitemapIndex)
    (he : e ∈ sitemaps) :
    ∃ pre post, SitemapIndexWriter.build sitemaps =
      pre ++ (SitemapIndexWriter.sitemapRow e ++ post) := by
  obtain ⟨l1, l2, rfl⟩ := List.append_of_mem he
  refine ⟨xmlDecl ++ (sitemapindexOpen ++ strConcat (l1.map SitemapIndexWriter.sitemapRow)),
    strConcat (l2.map SitemapIndexWriter.sitemapRow) ++ "</sitemapindex>", ?_⟩
  rw [indexBuild_eq]
  simp [List.map_append, strConcat_append, strConcat, String.append_assoc]

/-- Concatenating the chunks SitemapWriter::make writes gives exactly the
string SitemapWriter::build returns. -/
theorem strConcat_makeChunks (urls : List SitemapUrl) :
    strConcat (SitemapWriter.makeChunks urls) = SitemapWriter.build urls := by
  rw [build_eq]
  simp [SitemapWriter.makeChunks, strConcat, strConcat_append, String.append_empty,
    String.append_assoc]

/-- Concatenating the chunks SitemapIndexWriter::make writes gives exactly
the string SitemapIndexWriter::build returns. -/
theorem strConcat_indexMakeChunks (sitemaps : List SitemapIndex) :
    strConcat (SitemapIndexWriter.makeChunks sitemaps) = SitemapIndexWriter.build sitemaps := by
  rw [indexBuild_eq]
  simp [SitemapIndexWriter.makeChunks, strConcat, strConcat_append, String.append_empty,
    String.append_assoc]

/-- The last character of an append is the last character of its nonempty
right part. -/
theorem getLast_of_append (p t : String) (c : Char) (h : t.data.getLast? = some c) :
    (p ++ t).data.getLast? = some c := by
  rw [String.data_append, List.getLast?_append, h]
  rfl

/- Claim theorems. -/

/-- C1, counterexample: the code escapes loc with html_escape::encode_text,
which leaves quote characters unchanged, so for a location consisting of one
double-quote character the emitted loc element content is that raw quote
character, not an entity reference as the claim requires. -/
theorem c1_quote_counterexample :
    SitemapWriter.build [{ loc := "\"", lastmod := none, changefreq := none, priority := none }] =
      xmlDecl ++ (urlsetOpen ++ ("<url><loc>\"</loc></url>" ++ "</urlset> ")) ∧
    claimEscape "\"" = "&quot;" ∧
    ("<url><loc>\"</loc></url>" : String) ≠
      "<url><loc>" ++ (claimEscape "\"" ++ "</loc></url>") := by
  refine ⟨by decide, by decide, by decide⟩

/-- C1, amended: the text emitted between the loc tags for every entry of
either serializer is the entry's location escaped by encode_text, which
replaces each ampersand, less-than and greater-than character with its
entity reference, leaves every other character (quotes included) unchanged,
and whose output contains no raw less-than or greater-than character. -/
theorem c1_loc_escaped (urls : List SitemapUrl) (u : SitemapUrl) (hu : u ∈ urls)
    (sitemaps : List SitemapIndex) (e : SitemapIndex) (he : e ∈ sitemaps) :
    (∃ pre post, SitemapWriter.build urls =
      pre ++ ("<loc>" ++ (encodeText u.loc ++ ("</loc>" ++ post)))) ∧
    (∃ pre post, SitemapIndexWriter.build sitemaps =
      pre ++ ("<loc>" ++ (encodeText e.loc ++ ("</loc>" ++ post)))) ∧
    (∀ c ∈ (encodeText u.loc).data, c ≠ '<' ∧ c ≠ '>') ∧
    (∀ c ∈ (encodeText e.loc).data, c ≠ '<' ∧ c ≠ '>') ∧
    encodeTextChar '&' = "&amp;" ∧
    encodeTextChar '<' = "&lt;" ∧
    encodeTextChar '>' = "&gt;" ∧
    (∀ c : Char, c ≠ '&' → c ≠ '<' → c ≠ '>' → encodeTextChar c = String.singleton c) := by
  obtain ⟨pre0, post0, hb⟩ := build_mem_decomp urls u hu
  obtain ⟨pre1, post1, hi⟩ := indexBuild_mem_decomp sitemaps e he
  refine ⟨?_, ?_, ?_, ?_, rfl, rfl, rfl, ?_⟩
  · refine ⟨pre0 ++ "<url>",
      optElem "<lastmod>" "</lastmod>" u.lastmod ++
        (optElem "<changefreq>" "</changefreq>" (u.changefreq.map SitemapChangeFreq.toString) ++
          (optElem "<priority>" "</priority>" u.priority ++ ("</url>" ++ post0))), ?_⟩
    rw [hb, urlRow_eq]
    simp [String.append_assoc]
  · refine ⟨pre1 ++ "<sitemap>",
      optElem "<lastmod>" "</lastmod>" e.lastmod ++ ("</sitemap>" ++ post1), ?_⟩
    rw [hi, sitemapRow_eq]
    simp [String.append_assoc]
  · exact encodeChars_no_angle u.loc.data
  · exact encodeChars_no_angle e.loc.data
  · intro c h1 h2 h3
    simp [encodeTextChar, h1, h2, h3]

/-- C2: the escaping applied to locations is injective, decoding the escaped
result recovers the original string, and an input already containing the
literal sequence of an ampersand entity is escaped again exactly once. -/
theorem c2_escape_injective_once :
    (∀ s t : String, encodeText s = encodeText t → s = t) ∧
    (∀ s : String, decodeText (encodeText s) = s) ∧
    encodeText "&amp;" = "&amp;amp;" :=
  ⟨encodeText_injective, decodeText_encodeText, by decide⟩

/-- C3: when make succeeds, the concatenation of all strings it wrote, in
order, equals exactly the string build returns on the same entry sequence,
for both serializers. -/
theorem c3_make_writes_build (env1 env2 : WriteEnv) (urls : List SitemapUrl)
    (sitemaps : List SitemapIndex)
    (h1 : (SitemapWriter.make env1 urls).1 = Except.ok ())
    (h2 : (SitemapIndexWriter.make env2 sitemaps).1 = Except.ok ()) :
    strConcat (SitemapWriter.make env1 urls).2 = SitemapWriter.build urls ∧
    strConcat (SitemapIndexWriter.make env2 sitemaps).2 =
      SitemapIndexWriter.build sitemaps := by
  constructor
  · have ht := runMake_ok_trace env1 (SitemapWriter.makeChunks urls) h1
    simp only [SitemapWriter.make] at ht ⊢
    rw [ht, strConcat_makeChunks]
  · have ht := runMake_ok_trace env2 (SitemapIndexWriter.makeChunks sitemaps) h2
    simp only [SitemapIndexWriter.make] at ht ⊢
    rw [ht, strConcat_indexMakeChunks]

/-- C4: the output of build is the declaration, the root-open tag, then one
row per entry concatenated directly in input order, then the closing tag;
each row is wrapped in the child tags; the empty sequence yields the
declaration followed by an empty root element pair. -/
theorem c4_entry_count_order (urls : List SitemapUrl) (sitemaps : List SitemapIndex) :
    SitemapWriter.build urls =
      xmlDecl ++ (urlsetOpen ++ (strConcat (urls.map SitemapWriter.urlRow) ++ "</urlset> ")) ∧
    (urls.map SitemapWriter.urlRow).length = urls.length ∧
    (∀ u : SitemapUrl, ∃ inner : String,
      SitemapWriter.urlRow u = "<url>" ++ (inner ++ "</url>")) ∧
    SitemapWriter.build [] = xmlDecl ++ (urlsetOpen ++ "</urlset> ") ∧
    SitemapIndexWriter.build sitemaps =
      xmlDecl ++ (sitemapindexOpen ++
        (strConcat (sitemaps.map SitemapIndexWriter.sitemapRow) ++ "</sitemapindex>")) ∧
    (sitemaps.map SitemapIndexWriter.sitemapRow).length = sitemaps.length ∧
    (∀ e : SitemapIndex, ∃ inner : String,
      SitemapIndexWriter.sitemapRow e = "<sitemap>" ++ (inner ++ "</sitemap>")) ∧
    SitemapIndexWriter.build [] = xmlDecl ++ (sitemapindexOpen ++ "</sitemapindex>") := by
  refine ⟨build_eq urls, List.length_map _ _, ?_, ?_, indexBuild_eq sitemaps,
    List.length_map _ _, ?_, ?_⟩
  · intro u
    refine ⟨"<loc>" ++ (encodeText u.loc ++ ("</loc>" ++
      (optElem "<lastmod>" "</lastmod>" u.lastmod ++
        (optElem "<changefreq>" "</changefreq>" (u.changefreq.map SitemapChangeFreq.toString) ++
          optElem "<priority>" "</priority>" u.priority)))), ?_⟩
    rw [urlRow_eq]
    simp [String.append_assoc]
  · rw [build_eq]
    simp [strConcat, String.empty_append]
  · intro e
    refine ⟨"<loc>" ++ (encodeText e.loc ++ ("</loc>" ++
      optElem "<lastmod>" "</lastmod>" e.lastmod)), ?_⟩
    rw [sitemapRow_eq]
    simp [String.append_assoc]
  · rw [indexBuild_eq]
    simp [strConcat, String.empty_append]

/-- C5: within a url element the sub-elements appear in the fixed order
location, lastmod, changefreq, priority, each optional field contributing
nothing when absent; an entry with every optional field absent yields a url
element containing only the loc sub-element; an index element is location
then optional lastmod. -/
theorem c5_field_order (u : SitemapUrl) (e : SitemapIndex) (loc : String) :
    SitemapWriter.urlRow u =
      "<url>" ++ ("<loc>" ++ (encodeText u.loc ++ ("</loc>" ++
        (optElem "<lastmod>" "</lastmod>" u.lastmod ++
          (optElem "<changefreq>" "</changefreq>"
              (u.changefreq.map SitemapChangeFreq.toString) ++
            (optElem "<priority>" "</priority>" u.priority ++ "</url>")))))) ∧
    SitemapWriter.urlRow { loc := loc, lastmod := none, changefreq := none, priority := none } =
      "<url>" ++ ("<loc>" ++ (encodeText loc ++ ("</loc>" ++ "</url>"))) ∧
    SitemapIndexWriter.sitemapRow e =
      "<sitemap>" ++ ("<loc>" ++ (encodeText e.loc ++ ("</loc>" ++
        (optElem "<lastmod>" "</lastmod>" e.lastmod ++ "</sitemap>")))) := by
  refine ⟨urlRow_eq u, ?_, sitemapRow_eq e⟩
  rw [urlRow_eq]
  simp [optElem, String.empty_append]

/-- C6: the URL-set document always ends with its closing tag followed by a
single trailing space, while the index document ends with its closing tag
and no trailing space (its last character is the greater-than sign). -/
theorem c6_trailing_space_asym (urls : List SitemapUrl) (sitemaps : List SitemapIndex) :
    (∃ p, SitemapWriter.build urls = p ++ "</urlset> ") ∧
    (SitemapWriter.build urls).data.getLast? = some ' ' ∧
    (∃ q, SitemapIndexWriter.build sitemaps = q ++ "</sitemapindex>") ∧
    (SitemapIndexWriter.build sitemaps).data.getLast? = some '>' := by
  have h1 : SitemapWriter.build urls =
      (xmlDecl ++ (urlsetOpen ++ strConcat (urls.map SitemapWriter.urlRow))) ++ "</urlset> " := by
    rw [build_eq]
    simp [String.append_assoc]
  have h2 : SitemapIndexWriter.build sitemaps =
      (xmlDecl ++ (sitemapindexOpen ++ strConcat (sitemaps.map SitemapIndexWriter.sitemapRow))) ++
        "</sitemapindex>" := by
    rw [indexBuild_eq]
    simp [String.append_assoc]
  refine ⟨⟨_, h1⟩, ?_, ⟨_, h2⟩, ?_⟩
  · rw [h1]
    exact getLast_of_append _ _ _ (by decide)
  · rw [h2]
    exact getLast_of_append _ _ _ (by decide)

/-- C7: make returns the FileOpen error kind exactly when file creation
fails, writing nothing in that case; after a successful creation it succeeds
exactly when every write and the flush succeed, and a Write error carries
the platform message of a failed write or of the failed flush; the same
holds for the index writer. -/
theorem c7_error_kinds (env1 env2 : WriteEnv) (urls : List SitemapUrl)
    (sitemaps : List SitemapIndex) :
    (∀ m, env1.createResult = Except.error m →
      SitemapWriter.make env1 urls = (Except.error (SitemapError.FileOpen m), [])) ∧
    (∀ m, (SitemapWriter.make env1 urls).1 = Except.error (SitemapError.FileOpen m) →
      env1.createResult = Except.error m) ∧
    (env1.createResult = Except.ok () →
      ((SitemapWriter.make env1 urls).1 = Except.ok () ↔
        (∀ j, j < (SitemapWriter.makeChunks urls).length →
          env1.writeResult j = Except.ok ()) ∧ env1.flushResult = Except.ok ())) ∧
    (∀ m, (SitemapWriter.make env1 urls).1 = Except.error (SitemapError.Write m) →
      env1.createResult = Except.ok () ∧
        ((∃ j, j < (SitemapWriter.makeChunks urls).length ∧
            env1.writeResult j = Except.error m) ∨
          env1.flushResult = Except.error m)) ∧
    (∀ m, env2.createResult = Except.error m →
      SitemapIndexWriter.make env2 sitemaps = (Except.error (SitemapError.FileOpen m), [])) ∧
    (∀ m, (SitemapIndexWriter.make env2 sitemaps).1 = Except.error (SitemapError.FileOpen m) →
      env2.createResult = Except.error m) ∧
    (env2.createResult = Except.ok () →
      ((SitemapIndexWriter.make env2 sitemaps).1 = Except.ok () ↔
        (∀ j, j < (SitemapIndexWriter.makeChunks sitemaps).length →
          env2.writeResult j = Except.ok ()) ∧ env2.flushResult = Except.ok ())) ∧
    (∀ m, (SitemapIndexWriter.make env2 sitemaps).1 = Except.error (SitemapError.Write m) →
      env2.createResult = Except.ok () ∧
        ((∃ j, j < (SitemapIndexWriter.makeChunks sitemaps).length ∧
            env2.writeResult j = Except.error m) ∨
          env2.flushResult = Except.error m)) :=
  ⟨fun m h => runMake_create_error env1 (SitemapWriter.makeChunks urls) m h,
    fun m h => runMake_fileOpen_inv env1 (SitemapWriter.makeChunks urls) m h,
    fun h => runMake_ok_iff env1 (SitemapWriter.makeChunks urls) h,
    fun m h => runMake_write_error env1 (SitemapWriter.makeChunks urls) m h,
    fun m h => runMake_create_error env2 (SitemapIndexWriter.makeChunks sitemaps) m h,
    fun m h => runMake_fileOpen_inv env2 (SitemapIndexWriter.makeChunks sitemaps) m h,
    fun h => runMake_ok_iff env2 (SitemapIndexWriter.makeChunks sitemaps) h,
    fun m h => runMake_write_error env2 (SitemapIndexWriter.makeChunks sitemaps) m h⟩

/-- C8: for every input sequence, build of either serializer terminates and
returns a string starting with the XML declaration; as a total Lean function
of its input it can neither fail nor have side effects. -/
theorem c8_build_total (urls : List SitemapUrl) (sitemaps : List SitemapIndex) :
    (∃ rest, SitemapWriter.build urls = xmlDecl ++ rest) ∧
    (∃ rest, SitemapIndexWriter.build sitemaps = xmlDecl ++ rest) :=
  ⟨⟨_, build_eq urls⟩, ⟨_, indexBuild_eq sitemaps⟩⟩

/-- C9: the lastmod field is emitted verbatim between the lastmod tags, with
no escaping, for both serializers; in particular a value containing a raw
ampersand appears raw in the document. -/
theorem c9_lastmod_verbatim (urls : List SitemapUrl) (u : SitemapUrl) (s : String)
    (hu : u ∈ urls) (hs : u.lastmod = some s)
    (sitemaps : List SitemapIndex) (e : SitemapIndex) (t : String)
    (he : e ∈ sitemaps) (ht : e.lastmod = some t) :
    (∃ pre post, SitemapWriter.build urls =
      pre ++ ("<lastmod>" ++ (s ++ ("</lastmod>" ++ post)))) ∧
    (∃ pre post, SitemapIndexWriter.build sitemaps =
      pre ++ ("<lastmod>" ++ (t ++ ("</lastmod>" ++ post)))) ∧
    SitemapIndexWriter.sitemapRow { loc := "x", lastmod := some "a&b<c" } =
      "<sitemap><loc>x</loc><lastmod>a&b<c</lastmod></sitemap>" := by
  obtain ⟨pre0, post0, hb⟩ := build_mem_decomp urls u hu
  obtain ⟨pre1, post1, hi⟩ := indexBuild_mem_decomp sitemaps e he
  refine ⟨?_, ?_, by decide⟩
  · refine ⟨pre0 ++ ("<url>" ++ ("<loc>" ++ (encodeText u.loc ++ "</loc>"))),
      optElem "<changefreq>" "</changefreq>" (u.changefreq.map SitemapChangeFreq.toString) ++
        (optElem "<priority>" "</priority>" u.priority ++ ("</url>" ++ post0)), ?_⟩
    rw [hb, urlRow_eq, hs]
    simp [optElem, String.append_assoc]
  · refine ⟨pre1 ++ ("<sitemap>" ++ ("<loc>" ++ (encodeText e.loc ++ "</loc>"))),
      "</sitemap>" ++ post1, ?_⟩
    rw [hi, sitemapRow_eq, ht]
    simp [optElem, String.append_assoc]
    rfl

/-- C10: the location field is not validated; the Default entry has the
empty location, and build accepts it, emitting a url element whose loc pair
is empty. -/
theorem c10_empty_loc_accepted :
    SitemapUrl.default =
      { loc := "", lastmod := none, changefreq := none, priority := none } ∧
    SitemapWriter.build [SitemapUrl.default] =
      xmlDecl ++ (urlsetOpen ++ ("<url><loc></loc></url>" ++ "</urlset> ")) :=
  ⟨rfl, by decide⟩

/- Witnesses: concrete instantiations of the claim theorems. -/

/-- Witness for C1 (amended), at a concrete sitemap with one entry each. -/
theorem c1_loc_escaped_witness : encodeTextChar '&' = "&amp;" :=
  (c1_loc_escaped [SitemapUrl.new "a&b"] (SitemapUrl.new "a&b") (by simp)
    [SitemapIndex.new "x"] (SitemapIndex.new "x") (by simp)).2.2.2.2.1

/-- Witness for C2: injectivity applied at a concrete string. -/
theorem c2_escape_injective_once_witness : ("x&y<z" : String) = "x&y<z" :=
  c2_escape_injective_once.1 "x&y<z" "x&y<z" rfl

/-- Witness for C3: a fully successful platform layer with one concrete
entry. -/
theorem c3_make_writes_build_witness :
    strConcat (SitemapWriter.make
      { createResult := Except.ok (), writeResult := fun _ => Except.ok (),
        flushResult := Except.ok () }
      [SitemapUrl.new "https://example.com/"]).2 =
      SitemapWriter.build [SitemapUrl.new "https://example.com/"] :=
  (c3_make_writes_build
    { createResult := Except.ok (), writeResult := fun _ => Except.ok (),
      flushResult := Except.ok () }
    { createResult := Except.ok (), writeResult := fun _ => Except.ok (),
      flushResult := Except.ok () }
    [SitemapUrl.new "https://example.com/"] [] rfl rfl).1

/-- Witness for C4, at the empty entry sequence. -/
theorem c4_entry_count_order_witness :
    SitemapWriter.build [] = xmlDecl ++ (urlsetOpen ++ "</urlset> ") :=
  (c4_entry_count_order [] []).2.2.2.1

/-- Witness for C5, at an entry with every optional field absent. -/
theorem c5_field_order_witness :
    SitemapWriter.urlRow { loc := "a", lastmod := none, changefreq := none, priority := none } =
      "<url>" ++ ("<loc>" ++ (encodeText "a" ++ ("</loc>" ++ "</url>"))) :=
  (c5_field_order { loc := "a", lastmod := none, changefreq := none, priority := none }
    { loc := "b", lastmod := none } "a").2.1

/-- Witness for C6, at the empty index sequence. -/
theorem c6_trailing_space_asym_witness :
    (SitemapIndexWriter.build []).data.getLast? = some '>' :=
  (c6_trailing_space_asym [] []).2.2.2

/-- Witness for C7: a failing File::create yields the FileOpen error and an
empty write trace. -/
theorem c7_error_kinds_witness :
    SitemapWriter.make
      { createResult := Except.error "boom", writeResult := fun _ => Except.ok (),
        flushResult := Except.ok () } [] =
      (Except.error (SitemapError.FileOpen "boom"), []) :=
  (c7_error_kinds
    { createResult := Except.error "boom", writeResult := fun _ => Except.ok (),
      flushResult := Except.ok () }
    { createResult := Except.ok (), writeResult := fun _ => Except.ok (),
      flushResult := Except.ok () } [] []).1 "boom" rfl

/-- Witness for C8, at the empty entry sequence. -/
theorem c8_build_total_witness :
    ∃ rest, SitemapWriter.build [] = xmlDecl ++ rest :=
  (c8_build_total [] []).1

/-- Witness for C9, at a concrete entry with a concrete lastmod value. -/
theorem c9_lastmod_verbatim_witness :
    ∃ pre post, SitemapWriter.build
      [{ loc := "x", lastmod := some "2024-01-01", changefreq := none, priority := none }] =
      pre ++ ("<lastmod>" ++ ("2024-01-01" ++ ("</lastmod>" ++ post))) :=
  (c9_lastmod_verbatim
    [{ loc := "x", lastmod := some "2024-01-01", changefreq := none, priority := none }]
    { loc := "x", lastmod := some "2024-01-01", changefreq := none, priority := none }
    "2024-01-01" (by simp) rfl
    [{ loc := "y", lastmod := some "2024" }] { loc := "y", lastmod := some "2024" }
    "2024" (by simp) rfl).1
